import Mathlib

/-!
Verification of the quote-matching / amortization engine and the
administrative update handlers of the fairm-mortgage-ai server.

The embedding models the relational catalog (lenders and mortgage-rate
records) as lists, numeric columns as exact rationals, and the handlers
`getMortgageQuotes`, `updateLender`, `updateMortgageRate` as pure
functions over that catalog (state-passing where the handler touches the
store).  The SQL query of `getMortgageQuotes` (inner join, WHERE
conjunction, ORDER BY apr ASC) is embedded as join-list construction,
Boolean filtering, and a stable insertion sort on `apr`.
-/

/-- Loan type enum of the schema: conventional | fha | va | usda | jumbo. -/
inductive LoanType where
  | conventional
  | fha
  | va
  | usda
  | jumbo
  deriving DecidableEq

/-- Loan term enum of the schema: the strings "15" | "20" | "25" | "30". -/
inductive LoanTerm where
  | y15
  | y20
  | y25
  | y30
  deriving DecidableEq

/-- `parseInt(loan_term)`: the number of years a term denotes. -/
def LoanTerm.years : LoanTerm → Nat
  | .y15 => 15
  | .y20 => 20
  | .y25 => 25
  | .y30 => 30

/-- A row of `lendersTable`. -/
structure Lender where
  id : Nat
  name : String
  logo_url : Option String
  website_url : Option String
  phone : Option String
  email : Option String
  is_active : Bool
  created_at : Nat
  updated_at : Nat
  deriving DecidableEq

/-- A row of `mortgageRatesTable` (numeric columns carried exactly). -/
structure MortgageRate where
  id : Nat
  lender_id : Nat
  loan_type : LoanType
  loan_term : LoanTerm
  interest_rate : ℚ
  apr : ℚ
  points : ℚ
  min_credit_score : Int
  max_loan_amount : ℚ
  min_down_payment_percent : ℚ
  closing_costs : Option ℚ
  is_active : Bool
  created_at : Nat
  updated_at : Nat
  deriving DecidableEq

/-- `CreateMortgageQuoteRequestInput`: the borrower profile. -/
structure QuoteRequestInput where
  loan_amount : ℚ
  property_value : ℚ
  down_payment : ℚ
  credit_score : Int
  loan_type : LoanType
  loan_term : LoanTerm
  property_type : String
  occupancy_type : String
  zip_code : String
  debt_to_income_ratio : Option ℚ
  deriving DecidableEq

/-- `MortgageQuote`: the engine's output record (lines 61-76 of
`get_mortgage_quotes.ts`). -/
structure MortgageQuote where
  rate_id : Nat
  lender_id : Nat
  lender_name : String
  lender_logo_url : Option String
  loan_type : LoanType
  loan_term : LoanTerm
  interest_rate : ℚ
  apr : ℚ
  points : ℚ
  monthly_payment : ℚ
  total_interest : ℚ
  closing_costs : Option ℚ
  down_payment_percent : ℚ
  loan_to_value_ratio : ℚ
  deriving DecidableEq

/-- The database snapshot the handlers run against. -/
structure Catalog where
  lenders : List Lender
  rates : List MortgageRate
  deriving DecidableEq

/-- `Math.round(x * 100) / 100`: rounding to 2 decimal places.
JavaScript `Math.round` is `⌊x + 1/2⌋` (half is rounded toward `+∞`). -/
def round2 (x : ℚ) : ℚ := ((⌊x * 100 + 1 / 2⌋ : ℤ) : ℚ) / 100

/-- `calculateMonthlyPayment` (lines 86-99): standard amortized payment,
straight-line when the monthly rate is zero (that branch is returned
without rounding), otherwise rounded to 2 decimals. -/
def calculateMonthlyPayment (loanAmount interestRate : ℚ) (loanTermYears : Nat) : ℚ :=
  let monthlyRate := interestRate / 100 / 12
  let numberOfPayments := loanTermYears * 12
  if monthlyRate = 0 then
    loanAmount / (numberOfPayments : ℚ)
  else
    round2 (loanAmount * (monthlyRate * (1 + monthlyRate) ^ numberOfPayments) /
      ((1 + monthlyRate) ^ numberOfPayments - 1))

/-- `calculateTotalInterest` (lines 102-107). -/
def calculateTotalInterest (loanAmount interestRate : ℚ) (loanTermYears : Nat) : ℚ :=
  let monthlyPayment := calculateMonthlyPayment loanAmount interestRate loanTermYears
  let totalPayments := monthlyPayment * (loanTermYears : ℚ) * 12
  round2 (totalPayments - loanAmount)

/-- The WHERE clause of the rate query (lines 30-38): eligibility of a
joined (rate, lender) row against the profile and its derived
down-payment percentage. -/
def matchesCriteria (input : QuoteRequestInput) (downPaymentPercent : ℚ)
    (r : MortgageRate) (l : Lender) : Bool :=
  decide (r.loan_type = input.loan_type) &&
    decide (r.loan_term = input.loan_term) &&
    decide (r.min_credit_score ≤ input.credit_score) &&
    decide (r.max_loan_amount ≥ input.loan_amount) &&
    decide (r.min_down_payment_percent ≤ downPaymentPercent) &&
    r.is_active && l.is_active

/-- The INNER JOIN of `mortgageRatesTable` with `lendersTable` on
`lender_id = lenders.id` (line 29), in catalog order. -/
def joinRows (c : Catalog) : List (MortgageRate × Lender) :=
  c.rates.flatMap fun r => (c.lenders.filter fun l => l.id == r.lender_id).map fun l => (r, l)

/-- Stable insertion of a row into a list ordered by `apr`. -/
def insertByApr (p : MortgageRate × Lender) : List (MortgageRate × Lender) →
    List (MortgageRate × Lender)
  | [] => [p]
  | q :: qs => if q.1.apr ≤ p.1.apr then q :: insertByApr p qs else p :: q :: qs

/-- ORDER BY apr ASC (line 39) as a stable insertion sort. -/
def sortByApr : List (MortgageRate × Lender) → List (MortgageRate × Lender)
  | [] => []
  | p :: ps => insertByApr p (sortByApr ps)

/-- The result-row → quote transformation (lines 43-77). -/
def toQuote (input : QuoteRequestInput) (downPaymentPercent loanToValueRatio : ℚ)
    (p : MortgageRate × Lender) : MortgageQuote :=
  { rate_id := p.1.id
    lender_id := p.1.lender_id
    lender_name := p.2.name
    lender_logo_url := p.2.logo_url
    loan_type := p.1.loan_type
    loan_term := p.1.loan_term
    interest_rate := p.1.interest_rate
    apr := p.1.apr
    points := p.1.points
    monthly_payment := calculateMonthlyPayment input.loan_amount p.1.interest_rate
      input.loan_term.years
    total_interest := calculateTotalInterest input.loan_amount p.1.interest_rate
      input.loan_term.years
    closing_costs := p.1.closing_costs
    down_payment_percent := round2 downPaymentPercent
    loan_to_value_ratio := round2 loanToValueRatio }

/-- `getMortgageQuotes` (lines 6-82): derived ratios, filtered and
apr-sorted join, then per-row quote assembly. -/
def getMortgageQuotes (input : QuoteRequestInput) (c : Catalog) : List MortgageQuote :=
  let downPaymentPercent := input.down_payment / input.property_value * 100
  let loanToValueRatio := input.loan_amount / input.property_value * 100
  let results := sortByApr ((joinRows c).filter fun p => matchesCriteria input
    downPaymentPercent p.1 p.2)
  results.map (toQuote input downPaymentPercent loanToValueRatio)

/-- The handler as a transformer of the store: its only database access is
the SELECT, which also hands the snapshot back unchanged. -/
def dbSelectQuoteRows (input : QuoteRequestInput) (downPaymentPercent : ℚ)
    (st : Catalog) : List (MortgageRate × Lender) × Catalog :=
  (sortByApr ((joinRows st).filter fun p => matchesCriteria input
    downPaymentPercent p.1 p.2), st)

/-- `getMortgageQuotes` with the catalog threaded through as state: the
read is the single store interaction of the handler. -/
def getMortgageQuotesDB (input : QuoteRequestInput) (st : Catalog) :
    List MortgageQuote × Catalog :=
  let downPaymentPercent := input.down_payment / input.property_value * 100
  let loanToValueRatio := input.loan_amount / input.property_value * 100
  let rows := dbSelectQuoteRows input downPaymentPercent st
  (rows.1.map (toQuote input downPaymentPercent loanToValueRatio), rows.2)

/-- `UpdateLenderInput`: `id` plus the optional fields of the Zod update
schema; `none` is a field absent from the input (`undefined`). -/
structure UpdateLenderInput where
  id : Nat
  name : Option String
  logo_url : Option (Option String)
  website_url : Option (Option String)
  phone : Option (Option String)
  email : Option (Option String)
  is_active : Option Bool
  deriving DecidableEq

/-- The SET clause `updateLender` builds (lines 19-28 of
`update_lender.ts`): provided fields overwrite, `updated_at` is set to the
call time, everything else is untouched. -/
def applyLenderUpdate (input : UpdateLenderInput) (now : Nat) (l : Lender) : Lender :=
  { l with
    name := input.name.getD l.name
    logo_url := input.logo_url.getD l.logo_url
    website_url := input.website_url.getD l.website_url
    phone := input.phone.getD l.phone
    email := input.email.getD l.email
    is_active := input.is_active.getD l.is_active
    updated_at := now }

/-- `updateLender` (update_lender.ts): existence check by id, `not found`
error without touching the store, otherwise UPDATE ... WHERE id = input.id
RETURNING, the first returned row being the result. -/
def updateLender (input : UpdateLenderInput) (now : Nat) (st : Catalog) :
    Except String Lender × Catalog :=
  match st.lenders.filter fun l => l.id == input.id with
  | [] => (.error ("Lender with id " ++ toString input.id ++ " not found"), st)
  | l0 :: _ =>
    let newLenders := st.lenders.map fun l =>
      if l.id == input.id then applyLenderUpdate input now l else l
    (.ok (applyLenderUpdate input now l0), { st with lenders := newLenders })

/-- `UpdateMortgageRateInput`: `id` plus the optional fields of the Zod
update schema (`closing_costs` is optional and nullable). -/
structure UpdateMortgageRateInput where
  id : Nat
  lender_id : Option Nat
  loan_type : Option LoanType
  loan_term : Option LoanTerm
  interest_rate : Option ℚ
  apr : Option ℚ
  points : Option ℚ
  min_credit_score : Option Int
  max_loan_amount : Option ℚ
  min_down_payment_percent : Option ℚ
  closing_costs : Option (Option ℚ)
  is_active : Option Bool
  deriving DecidableEq

/-- The SET clause `updateMortgageRate` builds (lines 31-67 of
`update_mortgage_rate.ts`). -/
def applyRateUpdate (input : UpdateMortgageRateInput) (now : Nat)
    (r : MortgageRate) : MortgageRate :=
  { r with
    lender_id := input.lender_id.getD r.lender_id
    loan_type := input.loan_type.getD r.loan_type
    loan_term := input.loan_term.getD r.loan_term
    interest_rate := input.interest_rate.getD r.interest_rate
    apr := input.apr.getD r.apr
    points := input.points.getD r.points
    min_credit_score := input.min_credit_score.getD r.min_credit_score
    max_loan_amount := input.max_loan_amount.getD r.max_loan_amount
    min_down_payment_percent := input.min_down_payment_percent.getD
      r.min_down_payment_percent
    closing_costs := input.closing_costs.getD r.closing_costs
    is_active := input.is_active.getD r.is_active
    updated_at := now }

/-- `updateMortgageRate` (update_mortgage_rate.ts): rate existence check,
then (when `lender_id` is being updated) lender existence check — either
failure throws `not found` before any write — then the UPDATE with
RETURNING, the first returned row being the result. -/
def updateMortgageRate (input : UpdateMortgageRateInput) (now : Nat) (st : Catalog) :
    Except String MortgageRate × Catalog :=
  match st.rates.filter fun r => r.id == input.id with
  | [] => (.error ("Mortgage rate with ID " ++ toString input.id ++ " not found"), st)
  | r0 :: _ =>
    let lenderMissing : Option String :=
      match input.lender_id with
      | some lid =>
        if (st.lenders.filter fun l => l.id == lid).isEmpty then
          some ("Lender with ID " ++ toString lid ++ " not found")
        else none
      | none => none
    match lenderMissing with
    | some msg => (.error msg, st)
    | none =>
      let newRates := st.rates.map fun r =>
        if r.id == input.id then applyRateUpdate input now r else r
      (.ok (applyRateUpdate input now r0), { st with rates := newRates })

/-- Spec-side definition, for comparison with the code's `round2`:
"round-half-away-from-zero to 2 decimals". -/
def roundHalfAwayFromZero2 (x : ℚ) : ℚ :=
  if 0 ≤ x then ((⌊x * 100 + 1 / 2⌋ : ℤ) : ℚ) / 100
  else -(((⌊-x * 100 + 1 / 2⌋ : ℤ) : ℚ) / 100)

/-- How one field of an update behaves: an absent patch keeps the stored
value, a present patch replaces it. -/
def FrameField {α : Type} (patch : Option α) (old nw : α) : Prop :=
  (patch = none → nw = old) ∧ ∀ v, patch = some v → nw = v

/-- The frame property of `updateLender` on the matched row: id and
created_at untouched, updated_at stamped with the call time, every other
column patched exactly when the input provides it. -/
def LenderFrame (input : UpdateLenderInput) (now : Nat) (old nw : Lender) : Prop :=
  nw.id = old.id ∧ nw.created_at = old.created_at ∧ nw.updated_at = now ∧
    FrameField input.name old.name nw.name ∧
    FrameField input.logo_url old.logo_url nw.logo_url ∧
    FrameField input.website_url old.website_url nw.website_url ∧
    FrameField input.phone old.phone nw.phone ∧
    FrameField input.email old.email nw.email ∧
    FrameField input.is_active old.is_active nw.is_active

/-- The frame property of `updateMortgageRate` on the matched row. -/
def RateFrame (input : UpdateMortgageRateInput) (now : Nat) (old nw : MortgageRate) : Prop :=
  nw.id = old.id ∧ nw.created_at = old.created_at ∧ nw.updated_at = now ∧
    FrameField input.lender_id old.lender_id nw.lender_id ∧
    FrameField input.loan_type old.loan_type nw.loan_type ∧
    FrameField input.loan_term old.loan_term nw.loan_term ∧
    FrameField input.interest_rate old.interest_rate nw.interest_rate ∧
    FrameField input.apr old.apr nw.apr ∧
    FrameField input.points old.points nw.points ∧
    FrameField input.min_credit_score old.min_credit_score nw.min_credit_score ∧
    FrameField input.max_loan_amount old.max_loan_amount nw.max_loan_amount ∧
    FrameField input.min_down_payment_percent old.min_down_payment_percent
      nw.min_down_payment_percent ∧
    FrameField input.closing_costs old.closing_costs nw.closing_costs ∧
    FrameField input.is_active old.is_active nw.is_active

/-! Concrete fixtures, mirroring the repository's test data. -/

/-- An active lender. -/
def lender0 : Lender :=
  { id := 1, name := "Test Bank", logo_url := some "https://example.com/logo.png",
    website_url := some "https://testbank.com", phone := some "555-1234",
    email := some "info@testbank.com", is_active := true, created_at := 0,
    updated_at := 0 }

/-- An active conventional 30-year record with a zero interest rate. -/
def rate0 : MortgageRate :=
  { id := 1, lender_id := 1, loan_type := .conventional, loan_term := .y30,
    interest_rate := 0, apr := 5, points := 1, min_credit_score := 600,
    max_loan_amount := 1000000, min_down_payment_percent := 10,
    closing_costs := none, is_active := true, created_at := 0, updated_at := 0 }

/-- One active lender owning one active zero-rate record. -/
def cat0 : Catalog := { lenders := [lender0], rates := [rate0] }

/-- A borrower profile eligible for `rate0` (20% down). -/
def prof0 : QuoteRequestInput :=
  { loan_amount := 100000, property_value := 125000, down_payment := 25000,
    credit_score := 700, loan_type := .conventional, loan_term := .y30,
    property_type := "single_family", occupancy_type := "primary",
    zip_code := "90210", debt_to_income_ratio := none }

/-- The single quote `getMortgageQuotes prof0 cat0` produces:
straight-line payment 100000/360 = 2500/9, zero total interest. -/
def quote0 : MortgageQuote :=
  { rate_id := 1, lender_id := 1, lender_name := "Test Bank",
    lender_logo_url := some "https://example.com/logo.png",
    loan_type := .conventional, loan_term := .y30, interest_rate := 0,
    apr := 5, points := 1, monthly_payment := 2500 / 9, total_interest := 0,
    closing_costs := none, down_payment_percent := 20, loan_to_value_ratio := 80 }

/-- Catalog with two eligible records, apr 7.5 before apr 6.75. -/
def cat2 : Catalog :=
  { lenders := [lender0],
    rates := [{ rate0 with id := 2, apr := 7.5 }, { rate0 with id := 3, apr := 6.75 }] }

/-- `prof0` with a zero property value. -/
def profPV0 : QuoteRequestInput := { prof0 with property_value := 0 }

/-- `cat0` with the record's minimum down payment lowered to 0 percent, so
the down-payment filter also passes for the degenerate ratio a zero
property value induces. -/
def catMinDpp0 : Catalog :=
  { lenders := [lender0], rates := [{ rate0 with min_down_payment_percent := 0 }] }

/-- Update input whose id matches no stored lender. -/
def ulNF : UpdateLenderInput :=
  { id := 99, name := none, logo_url := none, website_url := none, phone := none,
    email := none, is_active := none }

/-- Update input whose id matches no stored mortgage rate. -/
def urNF : UpdateMortgageRateInput :=
  { id := 99, lender_id := none, loan_type := none, loan_term := none,
    interest_rate := none, apr := none, points := none, min_credit_score := none,
    max_loan_amount := none, min_down_payment_percent := none,
    closing_costs := none, is_active := none }

/-- Partial lender update: a new name and active flag, all else absent. -/
def ulW : UpdateLenderInput :=
  { id := 1, name := some "Updated Lender Name", logo_url := none,
    website_url := none, phone := none, email := none, is_active := some false }

/-- Partial rate update: a new apr, all else absent. -/
def urW : UpdateMortgageRateInput :=
  { id := 1, lender_id := none, loan_type := none, loan_term := none,
    interest_rate := none, apr := some 9, points := none, min_credit_score := none,
    max_loan_amount := none, min_down_payment_percent := none,
    closing_costs := none, is_active := none }

/-! Helper lemmas. -/

theorem mem_insertByApr {x p : MortgageRate × Lender}
    {ps : List (MortgageRate × Lender)} :
    x ∈ insertByApr p ps ↔ x = p ∨ x ∈ ps := by
  induction ps with
  | nil => simp [insertByApr]
  | cons q qs ih =>
    simp only [insertByApr]
    by_cases h : q.1.apr ≤ p.1.apr
    · rw [if_pos h]
      simp only [List.mem_cons, ih]
      tauto
    · rw [if_neg h]
      simp only [List.mem_cons]

theorem mem_sortByApr {x : MortgageRate × Lender} {ps : List (MortgageRate × Lender)} :
    x ∈ sortByApr ps ↔ x ∈ ps := by
  induction ps with
  | nil => simp [sortByApr]
  | cons p ps ih => simp [sortByApr, mem_insertByApr, ih]

theorem pairwise_insertByApr {p : MortgageRate × Lender}
    {ps : List (MortgageRate × Lender)}
    (hs : ps.Pairwise fun a b => a.1.apr ≤ b.1.apr) :
    (insertByApr p ps).Pairwise fun a b => a.1.apr ≤ b.1.apr := by
  induction ps with
  | nil => simp [insertByApr]
  | cons q qs ih =>
    rcases List.pairwise_cons.mp hs with ⟨hq, hqs⟩
    simp only [insertByApr]
    by_cases h : q.1.apr ≤ p.1.apr
    · rw [if_pos h]
      refine List.pairwise_cons.mpr ⟨?_, ih hqs⟩
      intro x hx
      rcases mem_insertByApr.mp hx with rfl | hx
      · exact h
      · exact hq x hx
    · rw [if_neg h]
      refine List.pairwise_cons.mpr ⟨?_, hs⟩
      intro x hx
      rcases List.mem_cons.mp hx with rfl | hx
      · exact le_of_not_le h
      · exact le_trans (le_of_not_le h) (hq x hx)

theorem pairwise_sortByApr (ps : List (MortgageRate × Lender)) :
    (sortByApr ps).Pairwise fun a b => a.1.apr ≤ b.1.apr := by
  induction ps with
  | nil => simp [sortByApr]
  | cons p ps ih =>
    simp only [sortByApr]
    exact pairwise_insertByApr ih

theorem mem_joinRows {c : Catalog} {p : MortgageRate × Lender} (hp : p ∈ joinRows c) :
    p.1 ∈ c.rates ∧ p.2 ∈ c.lenders ∧ p.2.id = p.1.lender_id := by
  rcases List.mem_flatMap.mp hp with ⟨r, hr, hpl⟩
  rcases List.mem_map.mp hpl with ⟨l, hl, rfl⟩
  rcases List.mem_filter.mp hl with ⟨hl', hlid⟩
  refine ⟨hr, hl', ?_⟩
  simpa using hlid

theorem mem_getMortgageQuotes {input : QuoteRequestInput} {c : Catalog}
    {q : MortgageQuote} (hq : q ∈ getMortgageQuotes input c) :
    ∃ p, p ∈ joinRows c ∧
      matchesCriteria input (input.down_payment / input.property_value * 100)
        p.1 p.2 = true ∧
      q = toQuote input (input.down_payment / input.property_value * 100)
        (input.loan_amount / input.property_value * 100) p := by
  simp only [getMortgageQuotes] at hq
  rcases List.mem_map.mp hq with ⟨p, hp, rfl⟩
  rcases List.mem_filter.mp (mem_sortByApr.mp hp) with ⟨hpj, hpm⟩
  exact ⟨p, hpj, hpm, rfl⟩

theorem matchesCriteria_spelled {input : QuoteRequestInput} {dpp : ℚ}
    {r : MortgageRate} {l : Lender} (h : matchesCriteria input dpp r l = true) :
    r.loan_type = input.loan_type ∧ r.loan_term = input.loan_term ∧
      r.min_credit_score ≤ input.credit_score ∧
      input.loan_amount ≤ r.max_loan_amount ∧
      r.min_down_payment_percent ≤ dpp ∧
      r.is_active = true ∧ l.is_active = true := by
  simp only [matchesCriteria, Bool.and_eq_true, decide_eq_true_eq, ge_iff_le] at h
  tauto

theorem eval_cat0 : getMortgageQuotes prof0 cat0 = [quote0] := by
  norm_num [getMortgageQuotes, joinRows, sortByApr, insertByApr, matchesCriteria,
    toQuote, calculateMonthlyPayment, calculateTotalInterest, round2, cat0, prof0,
    lender0, rate0, quote0, LoanTerm.years]

/-! Claim theorems. -/

/-- Claim C1: every quote returned by `getMortgageQuotes` stems from a rate
record of the catalog satisfying every eligibility condition of the WHERE
clause — matching loan type and term, credit floor, amount cap, down
payment floor against the derived percentage, and active flags on both the
record and its owning lender. -/
theorem C1_quotes_satisfy_eligibility (input : QuoteRequestInput) (c : Catalog)
    (q : MortgageQuote) (hq : q ∈ getMortgageQuotes input c) :
    ∃ r ∈ c.rates, ∃ l ∈ c.lenders,
      q.rate_id = r.id ∧ q.lender_id = r.lender_id ∧ l.id = r.lender_id ∧
      r.loan_type = input.loan_type ∧ r.loan_term = input.loan_term ∧
      r.min_credit_score ≤ input.credit_score ∧
      input.loan_amount ≤ r.max_loan_amount ∧
      r.min_down_payment_percent ≤ input.down_payment / input.property_value * 100 ∧
      r.is_active = true ∧ l.is_active = true := by
  rcases mem_getMortgageQuotes hq with ⟨p, hpj, hpm, rfl⟩
  rcases mem_joinRows hpj with ⟨hr, hl, hid⟩
  rcases matchesCriteria_spelled hpm with ⟨h1, h2, h3, h4, h5, h6, h7⟩
  exact ⟨p.1, hr, p.2, hl, rfl, rfl, hid, h1, h2, h3, h4, h5, h6, h7⟩

/-- Witness for C1 at the concrete fixture: `quote0` is in the output for
`prof0` against `cat0`, and the eligibility facts follow. -/
theorem C1_witness :
    quote0 ∈ getMortgageQuotes prof0 cat0 ∧
    ∃ r ∈ cat0.rates, ∃ l ∈ cat0.lenders,
      quote0.rate_id = r.id ∧ quote0.lender_id = r.lender_id ∧ l.id = r.lender_id ∧
      r.loan_type = prof0.loan_type ∧ r.loan_term = prof0.loan_term ∧
      r.min_credit_score ≤ prof0.credit_score ∧
      prof0.loan_amount ≤ r.max_loan_amount ∧
      r.min_down_payment_percent ≤ prof0.down_payment / prof0.property_value * 100 ∧
      r.is_active = true ∧ l.is_active = true :=
  ⟨by simp [eval_cat0],
    C1_quotes_satisfy_eligibility prof0 cat0 quote0 (by simp [eval_cat0])⟩

/-- Claim C2: the output of `getMortgageQuotes` is always sorted
non-decreasing by `apr`; concretely, with two eligible records of apr 7.5
and 6.75 (in that catalog order) the returned aprs are [6.75, 7.5]. -/
theorem C2_sorted_by_apr :
    (∀ (input : QuoteRequestInput) (c : Catalog),
      (getMortgageQuotes input c).Pairwise fun a b => a.apr ≤ b.apr) ∧
    (getMortgageQuotes prof0 cat2).map (fun q => q.apr) = [6.75, 7.5] := by
  constructor
  · intro input c
    have hp := pairwise_sortByApr ((joinRows c).filter fun p =>
      matchesCriteria input (input.down_payment / input.property_value * 100) p.1 p.2)
    simp only [getMortgageQuotes]
    exact hp.map _ fun a b hab => hab
  · norm_num [getMortgageQuotes, joinRows, sortByApr, insertByApr, matchesCriteria,
      toQuote, calculateMonthlyPayment, calculateTotalInterest, round2, cat2, prof0,
      lender0, rate0, LoanTerm.years]

/-- Claim C3: for positive loan amount and rate, the monthly payment is the
standard amortization formula over the unrounded monthly rate and power
terms, rounded to 2 decimals only at the end; at loan_amount=400000,
interest_rate=6.0, loan_term=30 the payment is 2398.20 within ±0.01. -/
theorem C3_amortized_payment_formula :
    (∀ (P R : ℚ) (t : LoanTerm), 0 < P → 0 < R →
      calculateMonthlyPayment P R t.years =
        round2 (P * ((R / 100 / 12) * (1 + R / 100 / 12) ^ (t.years * 12)) /
          ((1 + R / 100 / 12) ^ (t.years * 12) - 1))) ∧
    calculateMonthlyPayment 400000 6 30 - 2398.20 ≤ 1 / 100 ∧
    2398.20 - calculateMonthlyPayment 400000 6 30 ≤ 1 / 100 := by
  refine ⟨?_, ?_, ?_⟩
  · intro P R t hP hR
    have hr : R / 100 / 12 ≠ 0 := by positivity
    simp only [calculateMonthlyPayment, if_neg hr]
  · norm_num [calculateMonthlyPayment, round2]
  · norm_num [calculateMonthlyPayment, round2]

/-- Witness for C3 at P=400000, R=6, T=30. -/
theorem C3_witness :
    (0 : ℚ) < 400000 ∧ (0 : ℚ) < 6 ∧
    calculateMonthlyPayment 400000 6 LoanTerm.y30.years =
      round2 (400000 * ((6 / 100 / 12) * (1 + 6 / 100 / 12) ^ (LoanTerm.y30.years * 12)) /
        ((1 + 6 / 100 / 12) ^ (LoanTerm.y30.years * 12) - 1)) :=
  ⟨by norm_num, by norm_num,
    C3_amortized_payment_formula.1 400000 6 .y30 (by norm_num) (by norm_num)⟩

/-- Claim C4 as stated is false: in the zero-rate branch the code returns
`loanAmount / numberOfPayments` without the final 2-decimal rounding, so
with loan_amount = 100000 over 30 years the quote carries 2500/9
(= 277.77…) and not its rounding 277.78. -/
theorem C4_counterexample :
    ∃ q ∈ getMortgageQuotes prof0 cat0, q.interest_rate = 0 ∧
      q.monthly_payment ≠
        round2 (prof0.loan_amount / ((prof0.loan_term.years : ℚ) * 12)) := by
  refine ⟨quote0, by simp [eval_cat0], rfl, ?_⟩
  norm_num [quote0, round2, prof0, LoanTerm.years]

/-- Claim C4 (amended): for an eligible record with interest_rate = 0 the
quote's monthly_payment equals loan_amount / (term_years * 12) exactly —
this branch is not rounded — and total_interest is exactly 0. -/
theorem C4_zero_rate_straight_line (input : QuoteRequestInput) (c : Catalog)
    (q : MortgageQuote) (hq : q ∈ getMortgageQuotes input c)
    (h0 : q.interest_rate = 0) :
    q.monthly_payment = input.loan_amount / ((input.loan_term.years : ℚ) * 12) ∧
    q.total_interest = 0 := by
  rcases mem_getMortgageQuotes hq with ⟨p, hpj, hpm, rfl⟩
  simp only [toQuote] at h0 ⊢
  rw [h0]
  have hy : ((input.loan_term.years : ℚ)) ≠ 0 := by
    cases h : input.loan_term <;> simp [LoanTerm.years]
  have hz : (0 : ℚ) / 100 / 12 = 0 := by norm_num
  constructor
  · simp only [calculateMonthlyPayment, if_pos hz]
    push_cast
    ring
  · simp only [calculateTotalInterest, calculateMonthlyPayment, if_pos hz]
    have hcancel : input.loan_amount / ((input.loan_term.years * 12 : ℕ) : ℚ) *
        (input.loan_term.years : ℚ) * 12 - input.loan_amount = 0 := by
      push_cast
      field_simp
      ring
    rw [hcancel]
    norm_num [round2]

/-- Witness for C4 (amended) at the concrete zero-rate fixture. -/
theorem C4_witness :
    quote0 ∈ getMortgageQuotes prof0 cat0 ∧ quote0.interest_rate = 0 ∧
    quote0.monthly_payment = prof0.loan_amount / ((prof0.loan_term.years : ℚ) * 12) ∧
    quote0.total_interest = 0 := by
  have h := C4_zero_rate_straight_line prof0 cat0 quote0 (by simp [eval_cat0]) rfl
  exact ⟨by simp [eval_cat0], rfl, h.1, h.2⟩

/-- Claim C5: with a positive property value (and the data model's
nonnegative currency amounts), every quote of a response carries
down_payment_percent = round(down_payment/property_value*100, 2) and
loan_to_value_ratio = round(loan_amount/property_value*100, 2) under
round-half-away-from-zero, and the two values agree across the response. -/
theorem C5_derived_ratios (input : QuoteRequestInput) (c : Catalog)
    (hpv : 0 < input.property_value) (hdp : 0 ≤ input.down_payment)
    (hla : 0 ≤ input.loan_amount) :
    (∀ q ∈ getMortgageQuotes input c,
      q.down_payment_percent =
        roundHalfAwayFromZero2 (input.down_payment / input.property_value * 100) ∧
      q.loan_to_value_ratio =
        roundHalfAwayFromZero2 (input.loan_amount / input.property_value * 100)) ∧
    ∀ q ∈ getMortgageQuotes input c, ∀ q' ∈ getMortgageQuotes input c,
      q.down_payment_percent = q'.down_payment_percent ∧
      q.loan_to_value_ratio = q'.loan_to_value_ratio := by
  have hdpp : (0 : ℚ) ≤ input.down_payment / input.property_value * 100 :=
    mul_nonneg (div_nonneg hdp (le_of_lt hpv)) (by norm_num)
  have hltv : (0 : ℚ) ≤ input.loan_amount / input.property_value * 100 :=
    mul_nonneg (div_nonneg hla (le_of_lt hpv)) (by norm_num)
  have key : ∀ q ∈ getMortgageQuotes input c,
      q.down_payment_percent =
        roundHalfAwayFromZero2 (input.down_payment / input.property_value * 100) ∧
      q.loan_to_value_ratio =
        roundHalfAwayFromZero2 (input.loan_amount / input.property_value * 100) := by
    intro q hq
    rcases mem_getMortgageQuotes hq with ⟨p, hpj, hpm, rfl⟩
    constructor
    · simp only [toQuote, roundHalfAwayFromZero2, if_pos hdpp, round2]
    · simp only [toQuote, roundHalfAwayFromZero2, if_pos hltv, round2]
  refine ⟨key, fun q hq q' hq' => ?_⟩
  exact ⟨((key q hq).1).trans ((key q' hq').1).symm,
    ((key q hq).2).trans ((key q' hq').2).symm⟩

/-- Witness for C5 at the concrete fixture. -/
theorem C5_witness :
    (0 : ℚ) < prof0.property_value ∧
    (quote0 ∈ getMortgageQuotes prof0 cat0 ∧
      quote0.down_payment_percent =
        roundHalfAwayFromZero2 (prof0.down_payment / prof0.property_value * 100) ∧
      quote0.loan_to_value_ratio =
        roundHalfAwayFromZero2 (prof0.loan_amount / prof0.property_value * 100)) := by
  have h := (C5_derived_ratios prof0 cat0 (by norm_num [prof0])
    (by norm_num [prof0]) (by norm_num [prof0])).1 quote0 (by simp [eval_cat0])
  exact ⟨by norm_num [prof0], by simp [eval_cat0], h.1, h.2⟩

/-- Claim C6: each quote's total_interest is the 2-decimal rounding of
monthly_payment * term_years * 12 - loan_amount, computed from that
quote's own monthly payment. -/
theorem C6_total_interest_formula (input : QuoteRequestInput) (c : Catalog)
    (q : MortgageQuote) (hq : q ∈ getMortgageQuotes input c) :
    q.total_interest =
      round2 (q.monthly_payment * (input.loan_term.years : ℚ) * 12 -
        input.loan_amount) := by
  rcases mem_getMortgageQuotes hq with ⟨p, hpj, hpm, rfl⟩
  simp only [toQuote, calculateTotalInterest]

/-- Witness for C6 at the concrete fixture. -/
theorem C6_witness :
    quote0 ∈ getMortgageQuotes prof0 cat0 ∧
    quote0.total_interest =
      round2 (quote0.monthly_payment * (prof0.loan_term.years : ℚ) * 12 -
        prof0.loan_amount) :=
  ⟨by simp [eval_cat0],
    C6_total_interest_formula prof0 cat0 quote0 (by simp [eval_cat0])⟩

/-- Claim C7 as stated is false: the code has no property_value == 0 guard.
With property_value = 0 and an otherwise-eligible record whose minimum down
payment percent is 0, the division is not trapped and a quote is still
returned, so the output is not the empty sequence. -/
theorem C7_counterexample : getMortgageQuotes profPV0 catMinDpp0 ≠ [] := by
  norm_num [getMortgageQuotes, joinRows, sortByApr, insertByApr, matchesCriteria,
    toQuote, calculateMonthlyPayment, calculateTotalInterest, round2, catMinDpp0,
    profPV0, prof0, lender0, rate0, LoanTerm.years]

/-- Claim C7 (amended): `getMortgageQuotes` performs no property_value == 0
guard; at the explicit zero-property-value input it still returns exactly
one quote (rather than the empty list or an error). -/
theorem C7_no_zero_property_value_guard :
    (getMortgageQuotes profPV0 catMinDpp0).length = 1 := by
  norm_num [getMortgageQuotes, joinRows, sortByApr, insertByApr, matchesCriteria,
    toQuote, calculateMonthlyPayment, calculateTotalInterest, round2, catMinDpp0,
    profPV0, prof0, lender0, rate0, LoanTerm.years]

/-- Claim C8: the handler is a pure read — the catalog component it hands
back is the input snapshot, and running it again on that snapshot yields
the identical ordered output of the pure function. -/
theorem C8_pure_and_idempotent (input : QuoteRequestInput) (c : Catalog) :
    (getMortgageQuotesDB input c).2 = c ∧
    (getMortgageQuotesDB input (getMortgageQuotesDB input c).2).1 =
      (getMortgageQuotesDB input c).1 ∧
    (getMortgageQuotesDB input c).1 = getMortgageQuotes input c :=
  ⟨rfl, rfl, rfl⟩

theorem frameField_getD {α : Type} (patch : Option α) (old : α) :
    FrameField patch old (patch.getD old) := by
  refine ⟨fun h => ?_, fun v hv => ?_⟩
  · rw [h]
    rfl
  · rw [hv]
    rfl

theorem lenderFrame_apply (input : UpdateLenderInput) (now : Nat) (l : Lender) :
    LenderFrame input now l (applyLenderUpdate input now l) :=
  ⟨rfl, rfl, rfl, frameField_getD _ _, frameField_getD _ _, frameField_getD _ _,
    frameField_getD _ _, frameField_getD _ _, frameField_getD _ _⟩

theorem rateFrame_apply (input : UpdateMortgageRateInput) (now : Nat)
    (r : MortgageRate) : RateFrame input now r (applyRateUpdate input now r) :=
  ⟨rfl, rfl, rfl, frameField_getD _ _, frameField_getD _ _, frameField_getD _ _,
    frameField_getD _ _, frameField_getD _ _, frameField_getD _ _,
    frameField_getD _ _, frameField_getD _ _, frameField_getD _ _,
    frameField_getD _ _, frameField_getD _ _⟩

theorem updateLender_found {li : UpdateLenderInput} {now : Nat} {st : Catalog}
    {l0 : Lender} {rest : List Lender}
    (hcons : st.lenders.filter (fun l => l.id == li.id) = l0 :: rest) :
    updateLender li now st =
      (.ok (applyLenderUpdate li now l0),
        { st with lenders := st.lenders.map fun l =>
            if l.id == li.id then applyLenderUpdate li now l else l }) := by
  simp only [updateLender, hcons]

theorem updateMortgageRate_found {ri : UpdateMortgageRateInput} {now : Nat}
    {st : Catalog} {r0 : MortgageRate} {rest : List MortgageRate}
    (hcons : st.rates.filter (fun r => r.id == ri.id) = r0 :: rest)
    (hrl : ∀ lid, ri.lender_id = some lid → ∃ l ∈ st.lenders, l.id = lid) :
    updateMortgageRate ri now st =
      (.ok (applyRateUpdate ri now r0),
        { st with rates := st.rates.map fun r =>
            if r.id == ri.id then applyRateUpdate ri now r else r }) := by
  simp only [updateMortgageRate, hcons]
  cases hrid : ri.lender_id with
  | none => rfl
  | some lid =>
    rcases hrl lid hrid with ⟨l, hlmem, hlid⟩
    have hne : st.lenders.filter (fun x => x.id == lid) ≠ [] := by
      intro h
      have := List.filter_eq_nil_iff.mp h l hlmem
      simp [hlid] at this
    have hie : (st.lenders.filter fun x => x.id == lid).isEmpty = false :=
      List.isEmpty_eq_false.mpr hne
    simp [hie]

/-- Claim C9: an update whose id matches no stored lender (respectively no
stored mortgage rate) produces an error message ending in "not found" and
hands the store back completely unchanged — the failure happens before any
write. -/
theorem C9_update_not_found (st : Catalog) (now : Nat) :
    (∀ li : UpdateLenderInput, (∀ l ∈ st.lenders, l.id ≠ li.id) →
      ∃ pre, updateLender li now st = (.error (pre ++ " not found"), st)) ∧
    (∀ ri : UpdateMortgageRateInput, (∀ r ∈ st.rates, r.id ≠ ri.id) →
      ∃ pre, updateMortgageRate ri now st = (.error (pre ++ " not found"), st)) := by
  constructor
  · intro li hli
    have hf : st.lenders.filter (fun l => l.id == li.id) = [] := by
      rw [List.filter_eq_nil_iff]
      intro l hl
      simpa using hli l hl
    exact ⟨"Lender with id " ++ toString li.id, by simp only [updateLender, hf]⟩
  · intro ri hri
    have hf : st.rates.filter (fun r => r.id == ri.id) = [] := by
      rw [List.filter_eq_nil_iff]
      intro r hr
      simpa using hri r hr
    exact ⟨"Mortgage rate with ID " ++ toString ri.id, by
      simp only [updateMortgageRate, hf]⟩

/-- Witness for C9: id 99 matches nothing in `cat0`. -/
theorem C9_witness :
    (∀ l ∈ cat0.lenders, l.id ≠ ulNF.id) ∧
    (∃ pre, updateLender ulNF 7 cat0 = (.error (pre ++ " not found"), cat0)) ∧
    (∀ r ∈ cat0.rates, r.id ≠ urNF.id) ∧
    (∃ pre, updateMortgageRate urNF 7 cat0 = (.error (pre ++ " not found"), cat0)) := by
  refine ⟨?_, (C9_update_not_found cat0 7).1 ulNF ?_, ?_,
    (C9_update_not_found cat0 7).2 urNF ?_⟩ <;>
    simp [cat0, lender0, rate0, ulNF, urNF]

/-- Claim C10: successful updates are frame-exact.  On the matched row,
fields provided by the input are overwritten, omitted fields — including
created_at — keep their stored value, updated_at is stamped with the call
time; unmatched rows and the other table are untouched (for
`updateMortgageRate`, "referring to an existing lender" also covers a
provided lender_id). -/
theorem C10_update_frame (now : Nat) (st : Catalog)
    (li : UpdateLenderInput) (ri : UpdateMortgageRateInput)
    (hl : ∃ l ∈ st.lenders, l.id = li.id)
    (hr : ∃ r ∈ st.rates, r.id = ri.id)
    (hrl : ∀ lid, ri.lender_id = some lid → ∃ l ∈ st.lenders, l.id = lid) :
    ((updateLender li now st).2.rates = st.rates ∧
      (updateLender li now st).2.lenders.length = st.lenders.length ∧
      ∀ i (hi : i < st.lenders.length)
        (hi2 : i < (updateLender li now st).2.lenders.length),
        ((st.lenders.get ⟨i, hi⟩).id ≠ li.id →
          (updateLender li now st).2.lenders.get ⟨i, hi2⟩ =
            st.lenders.get ⟨i, hi⟩) ∧
        ((st.lenders.get ⟨i, hi⟩).id = li.id →
          LenderFrame li now (st.lenders.get ⟨i, hi⟩)
            ((updateLender li now st).2.lenders.get ⟨i, hi2⟩))) ∧
    ((updateMortgageRate ri now st).2.lenders = st.lenders ∧
      (updateMortgageRate ri now st).2.rates.length = st.rates.length ∧
      ∀ i (hi : i < st.rates.length)
        (hi2 : i < (updateMortgageRate ri now st).2.rates.length),
        ((st.rates.get ⟨i, hi⟩).id ≠ ri.id →
          (updateMortgageRate ri now st).2.rates.get ⟨i, hi2⟩ =
            st.rates.get ⟨i, hi⟩) ∧
        ((st.rates.get ⟨i, hi⟩).id = ri.id →
          RateFrame ri now (st.rates.get ⟨i, hi⟩)
            ((updateMortgageRate ri now st).2.rates.get ⟨i, hi2⟩))) := by
  have hfl : st.lenders.filter (fun l => l.id == li.id) ≠ [] := by
    rcases hl with ⟨l, hlmem, hlid⟩
    intro h
    have := List.filter_eq_nil_iff.mp h l hlmem
    simp [hlid] at this
  have hfr : st.rates.filter (fun r => r.id == ri.id) ≠ [] := by
    rcases hr with ⟨r, hrmem, hrid⟩
    intro h
    have := List.filter_eq_nil_iff.mp h r hrmem
    simp [hrid] at this
  constructor
  · cases hcons : st.lenders.filter (fun l => l.id == li.id) with
    | nil => exact absurd hcons hfl
    | cons l0 rest =>
      rw [updateLender_found hcons]
      refine ⟨rfl, List.length_map _ _, fun i hi hi2 => ⟨fun hne => ?_, fun heq => ?_⟩⟩
      · simp only [List.get_eq_getElem, List.getElem_map]
        rw [if_neg (by simpa using hne)]
      · simp only [List.get_eq_getElem, List.getElem_map]
        rw [if_pos (by simpa using heq)]
        exact lenderFrame_apply li now _
  · cases hcons : st.rates.filter (fun r => r.id == ri.id) with
    | nil => exact absurd hcons hfr
    | cons r0 rest =>
      rw [updateMortgageRate_found hcons hrl]
      refine ⟨rfl, List.length_map _ _, fun i hi hi2 => ⟨fun hne => ?_, fun heq => ?_⟩⟩
      · simp only [List.get_eq_getElem, List.getElem_map]
        rw [if_neg (by simpa using hne)]
      · simp only [List.get_eq_getElem, List.getElem_map]
        rw [if_pos (by simpa using heq)]
        exact rateFrame_apply ri now _

/-- Witness for C10: a partial lender update (name, is_active) and a
partial rate update (apr) on the one-row catalog. -/
theorem C10_witness :
    (∃ l ∈ cat0.lenders, l.id = ulW.id) ∧ (∃ r ∈ cat0.rates, r.id = urW.id) ∧
    (((updateLender ulW 7 cat0).2.rates = cat0.rates ∧
      (updateLender ulW 7 cat0).2.lenders.length = cat0.lenders.length ∧
      ∀ i (hi : i < cat0.lenders.length)
        (hi2 : i < (updateLender ulW 7 cat0).2.lenders.length),
        ((cat0.lenders.get ⟨i, hi⟩).id ≠ ulW.id →
          (updateLender ulW 7 cat0).2.lenders.get ⟨i, hi2⟩ =
            cat0.lenders.get ⟨i, hi⟩) ∧
        ((cat0.lenders.get ⟨i, hi⟩).id = ulW.id →
          LenderFrame ulW 7 (cat0.lenders.get ⟨i, hi⟩)
            ((updateLender ulW 7 cat0).2.lenders.get ⟨i, hi2⟩))) ∧
    ((updateMortgageRate urW 7 cat0).2.lenders = cat0.lenders ∧
      (updateMortgageRate urW 7 cat0).2.rates.length = cat0.rates.length ∧
      ∀ i (hi : i < cat0.rates.length)
        (hi2 : i < (updateMortgageRate urW 7 cat0).2.rates.length),
        ((cat0.rates.get ⟨i, hi⟩).id ≠ urW.id →
          (updateMortgageRate urW 7 cat0).2.rates.get ⟨i, hi2⟩ =
            cat0.rates.get ⟨i, hi⟩) ∧
        ((cat0.rates.get ⟨i, hi⟩).id = urW.id →
          RateFrame urW 7 (cat0.rates.get ⟨i, hi⟩)
            ((updateMortgageRate urW 7 cat0).2.rates.get ⟨i, hi2⟩)))) := by
  have hl : ∃ l ∈ cat0.lenders, l.id = ulW.id := ⟨lender0, by simp [cat0], rfl⟩
  have hr : ∃ r ∈ cat0.rates, r.id = urW.id := ⟨rate0, by simp [cat0], rfl⟩
  exact ⟨hl, hr,
    C10_update_frame 7 cat0 ulW urW hl hr fun lid h => by simp [urW] at h⟩
